import Mathlib

/-!
Shallow embedding of the silx colorbar and stats-table widgets
(src/silx/gui/plot/Colorbar.py and src/silx/gui/plot/StatsWidget.py).

Floats are modelled as rationals; non-finite floating point samples
(nan, inf) are modelled by a dedicated constructor.  Qt widget state is
reduced to the fields the synchronization logic reads and writes.
-/

namespace Silx

/-! ## Colorbar.py: colormap descriptors and the ColorbarWidget -/

/-- Colormap descriptor dict, as stored in `ColorbarWidget._colormap`:
keys name, normalization, autoscale, vmin, vmax, colors. -/
structure Cmap where
  name : Option String
  normalization : String
  autoscale : Bool
  vmin : ℚ
  vmax : ℚ
  colors : Option (List ℤ)
deriving DecidableEq

/-- State of a `ColorbarWidget` relevant to the synchronization logic:
the stored colormap dict, the matplotlib colorbar object (always reset to
None by `setColormap`), the two normalization radio buttons, the autoscale
checkbox, the text label and the legend widget text. -/
structure ColorbarState where
  colormap : Option Cmap
  colorbar : Option Unit
  linearChecked : Bool
  logChecked : Bool
  autoscaleChecked : Bool
  label : String
  legendText : String
deriving DecidableEq

/-- `ColorbarWidget.setColormap(name, normalization, vmin, vmax, colors,
autoscale)`.  Mirrors Colorbar.py lines 139-181: if both name and colors
are None the stored colormap becomes None; a linear normalization checks
the linear radio; a log normalization checks the log radio and, when
vmin <= 0 or vmax <= 0, replaces the bounds by (1, 10); any other
normalization raises ValueError; otherwise the descriptor dict is stored. -/
def setColormap (name : Option String) (normalization : String) (vmin vmax : ℚ)
    (colors : Option (List ℤ)) (autoscale : Bool) (s : ColorbarState) :
    Except String ColorbarState :=
  if name = none ∧ colors = none then
    Except.ok { s with colorbar := none, colormap := none }
  else if normalization = "linear" then
    Except.ok { s with
      linearChecked := true, logChecked := false,
      colorbar := none, autoscaleChecked := autoscale,
      legendText := s.label,
      colormap := some ⟨name, normalization, autoscale, vmin, vmax, colors⟩ }
  else if normalization = "log" then
    let bounds := if vmin ≤ 0 ∨ vmax ≤ 0 then ((1 : ℚ), (10 : ℚ)) else (vmin, vmax)
    Except.ok { s with
      logChecked := true, linearChecked := false,
      colorbar := none, autoscaleChecked := autoscale,
      legendText := s.label,
      colormap := some ⟨name, normalization, autoscale, bounds.1, bounds.2, colors⟩ }
  else
    Except.error ("Wrong normalization " ++ normalization)

/-- A floating point sample of the active image: either a finite value or a
non-finite one (nan or an infinity), which `numpy.isfinite` rejects. -/
inductive FVal where
  | fin (q : ℚ)
  | nonfin
deriving DecidableEq

/-- The finite samples of the image, in order: `image[numpy.isfinite(image)]`. -/
def finiteVals (data : List FVal) : List ℚ :=
  data.filterMap fun v =>
    match v with
    | FVal.fin q => some q
    | FVal.nonfin => none

/-- The finite and strictly positive samples of the image:
`image[numpy.logical_and(image > 0, numpy.isfinite(image))]`. -/
def posFiniteVals (data : List FVal) : List ℚ :=
  (finiteVals data).filter fun q => 0 < q

/-- `numpy.ndarray.min()`: none on an empty array (numpy raises ValueError
on an empty reduction). -/
def listMin : List ℚ → Option ℚ
  | [] => none
  | x :: xs => some (xs.foldl min x)

/-- `numpy.ndarray.max()`: none on an empty array. -/
def listMax : List ℚ → Option ℚ
  | [] => none
  | x :: xs => some (xs.foldl max x)

/-- The plot's active image as seen by the colorbar: its number of
dimensions, its data samples and its colormap dict. -/
structure ImageInfo where
  ndim : ℕ
  data : List FVal
  cmap : Cmap
deriving DecidableEq

/-- The plot collaborator of `ColorbarWidget`: active image (if any) and
default colormap. -/
structure CPlot where
  activeImage : Option ImageInfo
  defaultColormap : Cmap
deriving DecidableEq

/-- `ColorbarWidget._syncWithDefaultColormap` (Colorbar.py lines 243-255):
take the plot default colormap; if it has autoscale use the fixed range
(1, 10), otherwise its vmin/vmax; `setColormap` is called without the
autoscale argument, which therefore defaults to False. -/
def syncWithDefaultColormap (plot : CPlot) (s : ColorbarState) :
    Except String ColorbarState :=
  let cmap := plot.defaultColormap
  let bounds := if cmap.autoscale then ((1 : ℚ), (10 : ℚ)) else (cmap.vmin, cmap.vmax)
  setColormap cmap.name cmap.normalization bounds.1 bounds.2 cmap.colors false s

/-- `ColorbarWidget._activeImageChanged` (Colorbar.py lines 205-235).  The
legend argument is None exactly when the plot has no active image.  A
non-2D (RGB-style) image falls back to the default colormap.  With
autoscale on, the range is the min/max of the finite samples (finite and
strictly positive ones for log normalization); numpy raises on an empty
reduction, modelled as an error result. -/
def activeImageChanged (plot : CPlot) (s : ColorbarState) :
    Except String ColorbarState :=
  match plot.activeImage with
  | none => syncWithDefaultColormap plot s
  | some img =>
    if img.ndim ≠ 2 then syncWithDefaultColormap plot s
    else
      let cmap := img.cmap
      if cmap.autoscale then
        let data := if cmap.normalization = "log" then posFiniteVals img.data
                    else finiteVals img.data
        match listMin data, listMax data with
        | some vmn, some vmx =>
          setColormap cmap.name cmap.normalization vmn vmx cmap.colors false s
        | _, _ => Except.error "zero-size array reduction has no identity"
      else
        setColormap cmap.name cmap.normalization cmap.vmin cmap.vmax cmap.colors false s

/-- `MyColorMap` (Colorbar.py lines 380-397): copies the descriptor fields
used by `Gradation`. -/
structure MyColorMap where
  name : Option String
  normalization : String
  autoscale : Bool
  vmin : ℚ
  vmax : ℚ
deriving DecidableEq

/-- `Gradation.getValueFromRelativePostion` (Colorbar.py lines 367-377):
raises ValueError outside [0, 1], else returns
vmin + (vmax - vmin) * value. -/
def getValueFromRelativePostion (cm : MyColorMap) (value : ℚ) : Except String ℚ :=
  if ¬(0 ≤ value ∧ value ≤ 1) then
    Except.error "invalid value given, should be in [0.0, 1.0]"
  else
    Except.ok (cm.vmin + (cm.vmax - cm.vmin) * value)

/-! ## StatsWidget.py: the StatsTable -/

/-- Kind of a plot item (StatsWidget.py: the kinds accepted by
`_updateStats` and `_plotContentChanged`). -/
inductive Kind where
  | curve
  | image
  | scatter
  | histogram
deriving DecidableEq

/-- Composite key identifying a tracked row: `(legend, kind)`. -/
structure Key where
  legend : String
  kind : Kind
deriving DecidableEq

/-- Plot signals the table connects to (StatsWidget.py
`_dealWithPlotConnection`). -/
inductive Sig where
  | actImage
  | actScatter
  | actCurve
  | contentChanged
  | plotSignal
deriving DecidableEq

/-- Association-list lookup by legend in a plot item list. -/
def lookupStr : List (String × ℤ) → String → Option ℤ
  | [], _ => none
  | (l, d) :: rest, legend => if l = legend then some d else lookupStr rest legend

/-- The plot collaborator of a `StatsTable`: an identity used to key
signal connections, the items of each kind (legend and data) and the
active item of each kind. -/
structure PlotModel where
  pid : ℕ
  curves : List (String × ℤ)
  images : List (String × ℤ)
  scatters : List (String × ℤ)
  histograms : List (String × ℤ)
  activeCurve : Option String
  activeImage : Option String
  activeScatter : Option String
deriving DecidableEq

/-- `plot.getCurve/getImage/getScatter/getHistogram` selected by kind. -/
def getPlotItem (p : PlotModel) (k : Key) : Option ℤ :=
  match k.kind with
  | Kind.curve => lookupStr p.curves k.legend
  | Kind.image => lookupStr p.images k.legend
  | Kind.scatter => lookupStr p.scatters k.legend
  | Kind.histogram => lookupStr p.histograms k.legend

/-- Keys added by `_updateItemObserve` in active-item-only mode: the active
curve, image and scatter, in that order, when present in the plot. -/
def activeKeyOf (act : Option String) (items : List (String × ℤ)) (kd : Kind) :
    List Key :=
  match act with
  | none => []
  | some l =>
    match lookupStr items l with
    | none => []
    | some _ => [⟨l, kd⟩]

/-- Keys observed in active-item-only mode. -/
def plotActiveKeys (p : PlotModel) : List Key :=
  activeKeyOf p.activeCurve p.curves Kind.curve ++
    activeKeyOf p.activeImage p.images Kind.image ++
    activeKeyOf p.activeScatter p.scatters Kind.scatter

/-- Keys observed in all-items mode: all curves, images, scatters and
histograms, in that order. -/
def plotAllKeys (p : PlotModel) : List Key :=
  p.curves.map (fun c => ⟨c.1, Kind.curve⟩) ++
    p.images.map (fun c => ⟨c.1, Kind.image⟩) ++
    p.scatters.map (fun c => ⟨c.1, Kind.scatter⟩) ++
    p.histograms.map (fun c => ⟨c.1, Kind.histogram⟩)

/-- Remove the first occurrence of an element from a list (Qt `removeRow`
at the row of the key's legend cell, and Python `list.remove`). -/
def eraseFirst {α : Type} [DecidableEq α] : List α → α → List α
  | [], _ => []
  | x :: xs, a => if x = a then xs else x :: eraseFirst xs a

/-- Lookup in the `_lgdAndKindToItems` mapping, modelled as an association
list from keys to the displayed statistic cell value (none while no
statistic has been computed for the row yet). -/
def lookupVal : List (Key × Option ℤ) → Key → Option (Option ℤ)
  | [], _ => none
  | (k', v) :: rest, k => if k' = k then some v else lookupVal rest k

/-- Overwrite the cell value of a key in the mapping. -/
def setVal : List (Key × Option ℤ) → Key → Option ℤ → List (Key × Option ℤ)
  | [], _, _ => []
  | (k', v) :: rest, k, w => if k' = k then (k', w) :: rest else (k', v) :: setVal rest k w

/-- Delete a key from the mapping (`del self._lgdAndKindToItems[...]`). -/
def eraseKey : List (Key × Option ℤ) → Key → List (Key × Option ℤ)
  | [], _ => []
  | (k', v) :: rest, k => if k' = k then rest else (k', v) :: eraseKey rest k

/-- State of a `StatsTable`:

* `plot`: the attached plot (`_plotRef`),
* `displayOnlyActItem`, `statsOnVisibleData`: the two mode flags,
* `callbacksSet`: whether `_callbackImage/_callbackScatter/_callbackCurve`
  are non-None,
* `hasHandler`: whether `_statsHandler` is non-None,
* `dict`: the `_lgdAndKindToItems` mapping, key to displayed stat value,
* `qtRows`: the Qt table rows, each identified by the key whose cells it
  holds (`rowCount()` is its length),
* `legendsSet`: the `_legendsSet` list,
* `kindColHidden`: whether the kind column is hidden,
* `conns`: the live (plot id, signal) connections made by the table,
* `connErr`: set when a disconnect is attempted on a connection that does
  not exist (Qt raises TypeError in that case). -/
structure TState where
  plot : Option PlotModel
  displayOnlyActItem : Bool
  statsOnVisibleData : Bool
  callbacksSet : Bool
  hasHandler : Bool
  dict : List (Key × Option ℤ)
  qtRows : List Key
  legendsSet : List String
  kindColHidden : Bool
  conns : List (ℕ × Sig)
  connErr : Bool
deriving DecidableEq

/-- The new `_lgdAndKindToItems` produced by `StatsTable._updateStats`
(StatsWidget.py lines 328-365): no change when there is no plot, no stats
handler, the item is not found in the plot, or the key is not tracked;
otherwise the row's cells are rewritten with the freshly computed
statistics. -/
def updateStatsDict (fstat : ℤ → Bool → ℤ) (k : Key) (s : TState) :
    List (Key × Option ℤ) :=
  match s.plot with
  | none => s.dict
  | some p =>
    if s.hasHandler then
      match getPlotItem p k with
      | none => s.dict
      | some d =>
        if k ∈ s.dict.map Prod.fst then
          setVal s.dict k (some (fstat d s.statsOnVisibleData))
        else s.dict
    else s.dict

/-- `StatsTable._updateStats`: only the cell mapping changes. -/
def updateStats (fstat : ℤ → Bool → ℤ) (k : Key) (s : TState) : TState :=
  { s with dict := updateStatsDict fstat k s }

/-- `StatsTable._addItem` (StatsWidget.py lines 259-285): an already
tracked key only gets its statistics recomputed; a new key gets one new
row appended, a new mapping entry, its statistics computed, the kind
column visibility updated from `_legendsSet` before the legend is
appended to it. -/
def addItem (fstat : ℤ → Bool → ℤ) (k : Key) (s : TState) : TState :=
  if k ∈ s.dict.map Prod.fst then updateStats fstat k s
  else
    let s1 : TState := { s with
      qtRows := s.qtRows ++ [k],
      dict := s.dict ++ [(k, none)] }
    let s2 := updateStats fstat k s1
    { s2 with
      kindColHidden := !(s.legendsSet.contains k.legend),
      legendsSet := s.legendsSet ++ [k.legend] }

/-- `StatsTable._removeItem` (StatsWidget.py lines 313-322): a key not in
the mapping is a no-op; otherwise the mapping entry is deleted, the row
holding the key's legend cell is removed, the legend is removed from
`_legendsSet` and the kind column visibility recomputed. -/
def removeItem (k : Key) (s : TState) : TState :=
  if k ∈ s.dict.map Prod.fst then
    let newLegends := eraseFirst s.legendsSet k.legend
    { s with
      dict := eraseKey s.dict k,
      qtRows := eraseFirst s.qtRows k,
      legendsSet := newLegends,
      kindColHidden := !(newLegends.contains k.legend) }
  else s

/-- `StatsTable.clear` (StatsWidget.py lines 226-257): `_removeItem` on a
snapshot of every tracked key, then the mapping is reset, the Qt table
cleared with `setRowCount(0)`, and the kind column hidden. -/
def clearTable (s : TState) : TState :=
  let s1 := (s.dict.map Prod.fst).foldl (fun acc k => removeItem k acc) s
  { s1 with dict := [], qtRows := [], kindColHidden := true }

/-- `StatsTable._updateItemObserve` (StatsWidget.py lines 155-182): do
nothing without a plot; otherwise clear then re-add the active items
(active-item-only mode) or all items (all-items mode). -/
def updateItemObserve (fstat : ℤ → Bool → ℤ) (s : TState) : TState :=
  match s.plot with
  | none => s
  | some p =>
    let s1 := clearTable s
    let keys := if s.displayOnlyActItem then plotActiveKeys p else plotAllKeys p
    keys.foldl (fun acc k => addItem fstat k acc) s1

/-- `StatsTable._updateCurrentStats` (StatsWidget.py lines 324-326):
recompute the statistics of every tracked key. -/
def updateCurrentStats (fstat : ℤ → Bool → ℤ) (s : TState) : TState :=
  (s.dict.map Prod.fst).foldl (fun acc k => updateStats fstat k acc) s

/-- `StatsTable.setStatsOnVisibleData` (StatsWidget.py lines 403-415):
when the flag changes, store it and recompute all tracked rows. -/
def setStatsOnVisibleData (fstat : ℤ → Bool → ℤ) (b : Bool) (s : TState) : TState :=
  if s.statsOnVisibleData = b then s
  else updateCurrentStats fstat { s with statsOnVisibleData := b }

/-- `signal.connect(callback)` on the connection list paired with the
disconnect-error flag: one more live connection. -/
def connP (ce : List (ℕ × Sig) × Bool) (x : ℕ × Sig) : List (ℕ × Sig) × Bool :=
  (x :: ce.1, ce.2)

/-- `signal.disconnect(callback)` on the connection list paired with the
disconnect-error flag: removes the connection; disconnecting a callback
that is not connected is a Qt TypeError, recorded in the flag. -/
def discP (ce : List (ℕ × Sig) × Bool) (x : ℕ × Sig) : List (ℕ × Sig) × Bool :=
  if x ∈ ce.1 then (eraseFirst ce.1 x, ce.2) else (ce.1, true)

/-- `StatsTable._dealWithPlotConnection` (StatsWidget.py lines 184-224):
without a plot nothing happens.  In active-item-only mode, create
connects sigActiveImageChanged, sigActiveScatterChanged and
sigActiveCurveChanged in that order (creating the callbacks if needed);
disconnect removes them in the same order, but only when the callbacks
exist, and resets the callbacks to None.  In all-items mode,
sigContentChanged is connected or disconnected.  In both modes
sigPlotSignal is then connected or disconnected unconditionally. -/
def dealWithPlotConnection (create : Bool) (s : TState) : TState :=
  match s.plot with
  | none => s
  | some p =>
    let start := (s.conns, s.connErr)
    let step1 :=
      if s.displayOnlyActItem then
        if create then
          (connP (connP (connP start (p.pid, Sig.actImage)) (p.pid, Sig.actScatter))
             (p.pid, Sig.actCurve), true)
        else
          if s.callbacksSet then
            (discP (discP (discP start (p.pid, Sig.actImage)) (p.pid, Sig.actScatter))
               (p.pid, Sig.actCurve), false)
          else (start, s.callbacksSet)
      else
        if create then (connP start (p.pid, Sig.contentChanged), s.callbacksSet)
        else (discP start (p.pid, Sig.contentChanged), s.callbacksSet)
    let final :=
      if create then connP step1.1 (p.pid, Sig.plotSignal)
      else discP step1.1 (p.pid, Sig.plotSignal)
    { s with conns := final.1, connErr := final.2, callbacksSet := step1.2 }

/-- `StatsTable.setPlot` (StatsWidget.py lines 136-146): disconnect from
the old plot, store the new one, clear, reconnect, repopulate. -/
def setPlot (fstat : ℤ → Bool → ℤ) (newPlot : Option PlotModel) (s : TState) : TState :=
  let s1 := dealWithPlotConnection false s
  let s2 := clearTable { s1 with plot := newPlot }
  let s3 := dealWithPlotConnection true s2
  updateItemObserve fstat s3

/-- `StatsTable.setDisplayOnlyActiveItem` (StatsWidget.py lines 390-401):
no-op when the mode does not change; otherwise disconnect under the old
mode, switch, repopulate, reconnect under the new mode. -/
def setDisplayOnlyActiveItem (fstat : ℤ → Bool → ℤ) (b : Bool) (s : TState) : TState :=
  if s.displayOnlyActItem = b then s
  else
    let s1 := dealWithPlotConnection false s
    let s2 := updateItemObserve fstat { s1 with displayOnlyActItem := b }
    dealWithPlotConnection true s2

/-- Field state of a freshly constructed `StatsTable` before its
constructor calls `setPlot` (StatsWidget.py lines 65-83). -/
def initState : TState :=
  { plot := none, displayOnlyActItem := false, statsOnVisibleData := false,
    callbacksSet := false, hasHandler := false, dict := [], qtRows := [],
    legendsSet := [], kindColHidden := false, conns := [], connErr := false }

/-- `StatsTable.__init__`: the constructor ends by calling `setPlot`. -/
def mkTable (fstat : ℤ → Bool → ℤ) (plot : Option PlotModel) : TState :=
  setPlot fstat plot initState

/-- Operations of claim C10: the internal row bookkeeping operations. -/
inductive TOp where
  | addOp (k : Key)
  | removeOp (k : Key)
  | clearOp
deriving DecidableEq

/-- Apply a row bookkeeping operation. -/
def applyTOp (fstat : ℤ → Bool → ℤ) (s : TState) : TOp → TState
  | TOp.addOp k => addItem fstat k s
  | TOp.removeOp k => removeItem k s
  | TOp.clearOp => clearTable s

/-- Operations of claim C3: the public plot attachment and mode-toggle
operations. -/
inductive COp where
  | setPlotOp (p : Option PlotModel)
  | setDisplayOp (b : Bool)

/-- Apply a plot attachment or mode-toggle operation. -/
def applyCOp (fstat : ℤ → Bool → ℤ) (s : TState) : COp → TState
  | COp.setPlotOp p => setPlot fstat p s
  | COp.setDisplayOp b => setDisplayOnlyActiveItem fstat b s

/-! ## Concrete example states used by witnesses and counterexamples -/

/-- A concrete colorbar widget state. -/
def cbEx : ColorbarState :=
  { colormap := none, colorbar := none, linearChecked := false,
    logChecked := false, autoscaleChecked := false, label := "density",
    legendText := "" }

/-- A concrete colormap with vmin < vmax for the Gradation witnesses. -/
def cmEx : MyColorMap :=
  { name := some "gray", normalization := "linear", autoscale := false,
    vmin := 2, vmax := 5 }

/-- A concrete colormap with vmin > vmax, reachable since no code path
checks the ordering of the bounds. -/
def cmDec : MyColorMap :=
  { name := some "gray", normalization := "linear", autoscale := false,
    vmin := 1, vmax := 0 }

/-- A concrete active single-channel image whose samples are all
non-finite, with an autoscale colormap. -/
def cexImage : ImageInfo :=
  { ndim := 2, data := [FVal.nonfin],
    cmap := { name := some "gray", normalization := "linear", autoscale := true,
              vmin := 0, vmax := 1, colors := none } }

/-- A concrete plot whose active image is `cexImage`. -/
def cexCPlot : CPlot :=
  { activeImage := some cexImage,
    defaultColormap := { name := some "gray", normalization := "linear",
                         autoscale := false, vmin := 0, vmax := 1,
                         colors := none } }

/-- A concrete plot with one curve for the StatsTable witnesses. -/
def pEx : PlotModel :=
  { pid := 0, curves := [("c1", 5)], images := [], scatters := [],
    histograms := [], activeCurve := some "c1", activeImage := none,
    activeScatter := none }

/-- The key of the curve of `pEx`. -/
def kC1 : Key := ⟨"c1", Kind.curve⟩

/-- A concrete table state tracking the curve of `pEx`, with a stats
handler installed. -/
def sEx : TState :=
  { plot := some pEx, displayOnlyActItem := false, statsOnVisibleData := false,
    callbacksSet := false, hasHandler := true,
    dict := [(kC1, none)], qtRows := [kC1], legendsSet := ["c1"],
    kindColHidden := true, conns := [], connErr := false }


/-- Well-formedness of the table bookkeeping: the Qt rows are exactly the
keys of the `_lgdAndKindToItems` mapping, without duplicates. -/
def WfT (s : TState) : Prop :=
  s.qtRows = s.dict.map Prod.fst ∧ s.qtRows.Nodup

/-- The exact connection list held by a table attached to `plot` in mode
`flag`, as produced by `_dealWithPlotConnection(create=True)`. -/
def connsFor (plot : Option PlotModel) (flag : Bool) : List (ℕ × Sig) :=
  match plot with
  | none => []
  | some p =>
    if flag then
      [(p.pid, Sig.plotSignal), (p.pid, Sig.actCurve), (p.pid, Sig.actScatter),
        (p.pid, Sig.actImage)]
    else
      [(p.pid, Sig.plotSignal), (p.pid, Sig.contentChanged)]

/-- Connection invariant: no disconnect error has occurred, the callbacks
exist exactly in active-item-only mode with a plot attached, and the live
connections are exactly those dictated by the plot and the mode. -/
def ConnInv (s : TState) : Prop :=
  s.connErr = false ∧ s.callbacksSet = (s.displayOnlyActItem && s.plot.isSome) ∧
    s.conns = connsFor s.plot s.displayOnlyActItem

/-! ## Colorbar helper lemmas -/

/-- Helper: inside [0, 1] the Gradation value query succeeds with the
affine interpolation of the colormap bounds. -/
theorem getValue_ok_of_bounds (cm : MyColorMap) (p : ℚ) (h0 : 0 ≤ p) (h1 : p ≤ 1) :
    getValueFromRelativePostion cm p =
      Except.ok (cm.vmin + (cm.vmax - cm.vmin) * p) := by
  unfold getValueFromRelativePostion
  rw [if_neg (not_not_intro ⟨h0, h1⟩)]

/-! ## Claim theorems: Colorbar -/

/-- C1: for every call to `ColorbarWidget.setColormap` with normalization
log and vmin <= 0 or vmax <= 0 (and a non-None name or colors), the range
actually stored in the colormap descriptor is the fixed fallback (1, 10),
so the stored descriptor never has normalization log with a non-positive
bound. -/
theorem setColormap_log_nonpos_fallback (name : Option String) (vmin vmax : ℚ)
    (colors : Option (List ℤ)) (autoscale : Bool) (s : ColorbarState)
    (hbad : vmin ≤ 0 ∨ vmax ≤ 0) (hsome : name ≠ none ∨ colors ≠ none) :
    setColormap name "log" vmin vmax colors autoscale s =
      Except.ok { s with
        logChecked := true, linearChecked := false,
        colorbar := none, autoscaleChecked := autoscale,
        legendText := s.label,
        colormap := some ⟨name, "log", autoscale, 1, 10, colors⟩ } := by
  have h1 : ¬(name = none ∧ colors = none) := by
    rcases hsome with h | h
    · exact fun hc => h hc.1
    · exact fun hc => h hc.2
  unfold setColormap
  rw [if_neg h1, if_neg (by decide : ¬("log" : String) = "linear"),
    if_pos (rfl : ("log" : String) = "log"), if_pos hbad]

/-- Witness for C1 at a concrete input. -/
theorem setColormap_log_nonpos_fallback_witness :
    setColormap (some "viridis") "log" (-1) 10 none false cbEx =
      Except.ok { cbEx with
        logChecked := true, linearChecked := false,
        colorbar := none, autoscaleChecked := false,
        legendText := cbEx.label,
        colormap := some ⟨some "viridis", "log", false, 1, 10, none⟩ } :=
  setColormap_log_nonpos_fallback (some "viridis") (-1) 10 none false cbEx
    (Or.inl (by norm_num)) (Or.inl (by simp))

/-- C5: for every Gradation colormap with bounds vmin, vmax and relative
position p in [0, 1], `getValueFromRelativePostion p` returns exactly
vmin + (vmax - vmin) * p. -/
theorem getValueFromRelativePostion_affine (cm : MyColorMap) (p : ℚ)
    (h0 : 0 ≤ p) (h1 : p ≤ 1) :
    getValueFromRelativePostion cm p =
      Except.ok (cm.vmin + (cm.vmax - cm.vmin) * p) :=
  getValue_ok_of_bounds cm p h0 h1

/-- Witness for C5 at a concrete input. -/
theorem getValueFromRelativePostion_affine_witness :
    getValueFromRelativePostion cmEx (1 / 2) = Except.ok (7 / 2) := by
  have h := getValueFromRelativePostion_affine cmEx (1 / 2)
    (by norm_num) (by norm_num)
  rw [h]
  norm_num [cmEx]

/-- Counterexample for C6 as stated: with bounds vmin = 1 > vmax = 0,
which no code path rules out, the value function is strictly decreasing
between p1 = 0 and p2 = 1. -/
theorem gradation_monotone_cex :
    getValueFromRelativePostion cmDec 0 = Except.ok 1 ∧
    getValueFromRelativePostion cmDec 1 = Except.ok 0 ∧
    ¬((1 : ℚ) ≤ 0) := by
  refine ⟨?_, ?_, by norm_num⟩ <;>
    · rw [getValue_ok_of_bounds cmDec _ (by norm_num) (by norm_num)]
      norm_num [cmDec]

/-- C6 amended: for every Gradation colormap whose bounds satisfy
vmin <= vmax and all relative positions 0 <= p1 <= p2 <= 1, the value at
p1 is at most the value at p2; without the ordering hypothesis on the
bounds the function is antitone instead. -/
theorem gradation_monotone_of_bounds_le (cm : MyColorMap) (p1 p2 : ℚ)
    (hmm : cm.vmin ≤ cm.vmax) (h0 : 0 ≤ p1) (h12 : p1 ≤ p2) (h2 : p2 ≤ 1) :
    ∃ y1 y2, getValueFromRelativePostion cm p1 = Except.ok y1 ∧
      getValueFromRelativePostion cm p2 = Except.ok y2 ∧ y1 ≤ y2 := by
  refine ⟨_, _, getValue_ok_of_bounds cm p1 h0 (le_trans h12 h2),
    getValue_ok_of_bounds cm p2 (le_trans h0 h12) h2, ?_⟩
  have hnn : 0 ≤ cm.vmax - cm.vmin := sub_nonneg.mpr hmm
  have := mul_le_mul_of_nonneg_left h12 hnn
  linarith

/-- Witness for the amended C6 at a concrete input. -/
theorem gradation_monotone_of_bounds_le_witness :
    ∃ y1 y2, getValueFromRelativePostion cmEx 0 = Except.ok y1 ∧
      getValueFromRelativePostion cmEx 1 = Except.ok y2 ∧ y1 ≤ y2 :=
  gradation_monotone_of_bounds_le cmEx 0 1 (by norm_num [cmEx])
    (by norm_num) (by norm_num) (by norm_num)

/-- C7: the Gradation value query succeeds exactly when 0 <= p <= 1, and
outside that interval it raises the invalid-input ValueError. -/
theorem getValueFromRelativePostion_ok_iff (cm : MyColorMap) (p : ℚ) :
    ((∃ y, getValueFromRelativePostion cm p = Except.ok y) ↔ (0 ≤ p ∧ p ≤ 1)) ∧
    (¬(0 ≤ p ∧ p ≤ 1) →
      getValueFromRelativePostion cm p =
        Except.error "invalid value given, should be in [0.0, 1.0]") := by
  constructor
  · constructor
    · rintro ⟨y, hy⟩
      by_contra hc
      unfold getValueFromRelativePostion at hy
      rw [if_pos hc] at hy
      exact Except.noConfusion hy
    · rintro ⟨h0, h1⟩
      exact ⟨_, getValue_ok_of_bounds cm p h0 h1⟩
  · intro hc
    unfold getValueFromRelativePostion
    rw [if_pos hc]

/-- Witness for C7 at a concrete out-of-range input. -/
theorem getValueFromRelativePostion_ok_iff_witness :
    getValueFromRelativePostion cmEx 2 =
      Except.error "invalid value given, should be in [0.0, 1.0]" :=
  (getValueFromRelativePostion_ok_iff cmEx 2).2 (by norm_num)


/-- Counterexample for C4 as stated: with an active single-channel
autoscale image whose finite-value selection is empty, the handler
propagates the numpy empty-reduction error; it does not substitute a
fallback range. -/
theorem activeImageChanged_empty_selection_cex :
    activeImageChanged cexCPlot cbEx =
      Except.error "zero-size array reduction has no identity" := by
  rfl

/-- C4 amended: for every active single-channel image whose colormap has
autoscale enabled, the applied range is the min/max over the finite
samples (over the finite strictly positive samples for log
normalization), and when that selection is empty the handler raises
(propagates the empty-reduction error) instead of substituting a
fallback range. -/
theorem activeImageChanged_autoscale_range (plot : CPlot) (s : ColorbarState)
    (img : ImageInfo) (hact : plot.activeImage = some img) (hnd : img.ndim = 2)
    (hauto : img.cmap.autoscale = true) :
    (∀ vmn vmx,
      listMin (if img.cmap.normalization = "log" then posFiniteVals img.data
               else finiteVals img.data) = some vmn →
      listMax (if img.cmap.normalization = "log" then posFiniteVals img.data
               else finiteVals img.data) = some vmx →
      activeImageChanged plot s =
        setColormap img.cmap.name img.cmap.normalization vmn vmx
          img.cmap.colors false s) ∧
    ((if img.cmap.normalization = "log" then posFiniteVals img.data
      else finiteVals img.data) = [] →
      activeImageChanged plot s =
        Except.error "zero-size array reduction has no identity") := by
  unfold activeImageChanged
  rw [hact]
  simp only [hnd, hauto, if_true, ne_eq, not_true_eq_false, if_false, reduceIte]
  constructor
  · intro vmn vmx hmin hmax
    rw [hmin, hmax]
  · intro hempty
    rw [hempty]
    rfl

/-- Witness for the amended C4 at a concrete input with a non-empty
selection: data [3, nan, -2] under linear autoscale gives range (-2, 3). -/
theorem activeImageChanged_autoscale_range_witness :
    activeImageChanged
      { activeImage := some
          { ndim := 2, data := [FVal.fin 3, FVal.nonfin, FVal.fin (-2)],
            cmap := { name := some "gray", normalization := "linear",
                      autoscale := true, vmin := 0, vmax := 1, colors := none } },
        defaultColormap := cexCPlot.defaultColormap } cbEx =
      setColormap (some "gray") "linear" (-2) 3 none false cbEx := by
  have h := (activeImageChanged_autoscale_range
    { activeImage := some
        { ndim := 2, data := [FVal.fin 3, FVal.nonfin, FVal.fin (-2)],
          cmap := { name := some "gray", normalization := "linear",
                    autoscale := true, vmin := 0, vmax := 1, colors := none } },
      defaultColormap := cexCPlot.defaultColormap } cbEx _ rfl rfl rfl).1
  exact h (-2) 3 (by decide) (by decide)

/-! ## StatsTable helper lemmas: association lists -/

theorem setVal_map_fst (d : List (Key × Option ℤ)) (k : Key) (v : Option ℤ) :
    (setVal d k v).map Prod.fst = d.map Prod.fst := by
  induction d with
  | nil => rfl
  | cons hd tl ih =>
    obtain ⟨k', v'⟩ := hd
    by_cases h : k' = k <;> simp [setVal, h, ih]

theorem lookupVal_setVal_self (d : List (Key × Option ℤ)) (k : Key) (v : Option ℤ)
    (hk : k ∈ d.map Prod.fst) : lookupVal (setVal d k v) k = some v := by
  induction d with
  | nil => simp at hk
  | cons hd tl ih =>
    obtain ⟨k', v'⟩ := hd
    by_cases h : k' = k
    · simp [setVal, lookupVal, h]
    · rw [List.map_cons] at hk
      have hk' : k ∈ tl.map Prod.fst := by
        rcases List.mem_cons.mp hk with h' | h'
        · exact absurd h'.symm h
        · exact h'
      simp [setVal, lookupVal, h, ih hk']

theorem lookupVal_setVal_ne (d : List (Key × Option ℤ)) (k k' : Key) (v : Option ℤ)
    (h : k' ≠ k) : lookupVal (setVal d k v) k' = lookupVal d k' := by
  induction d with
  | nil => rfl
  | cons hd tl ih =>
    obtain ⟨k0, v0⟩ := hd
    by_cases h0 : k0 = k
    · have hne : k0 ≠ k' := fun hc => h (hc.symm.trans h0)
      simp only [setVal, if_pos h0, lookupVal, if_neg hne]
    · simp only [setVal, if_neg h0, lookupVal]
      by_cases h1 : k0 = k' <;> simp [h1, ih]

theorem eraseFirst_sublist {α : Type} [DecidableEq α] (l : List α) (a : α) :
    List.Sublist (eraseFirst l a) l := by
  induction l with
  | nil => exact List.Sublist.refl []
  | cons x xs ih =>
    by_cases h : x = a
    · simp only [eraseFirst, if_pos h]
      exact List.sublist_cons_self x xs
    · simp only [eraseFirst, if_neg h]
      exact List.Sublist.cons₂ x ih

theorem eraseFirst_map_fst (d : List (Key × Option ℤ)) (k : Key) :
    eraseFirst (d.map Prod.fst) k = (eraseKey d k).map Prod.fst := by
  induction d with
  | nil => rfl
  | cons hd tl ih =>
    obtain ⟨k', v'⟩ := hd
    by_cases h : k' = k <;> simp [eraseFirst, eraseKey, h, ih]

/-! ## StatsTable helper lemmas: field frames -/

theorem updateStats_plot (f : ℤ → Bool → ℤ) (k : Key) (s : TState) :
    (updateStats f k s).plot = s.plot := rfl

theorem updateStats_flags (f : ℤ → Bool → ℤ) (k : Key) (s : TState) :
    (updateStats f k s).displayOnlyActItem = s.displayOnlyActItem ∧
    (updateStats f k s).statsOnVisibleData = s.statsOnVisibleData ∧
    (updateStats f k s).callbacksSet = s.callbacksSet ∧
    (updateStats f k s).hasHandler = s.hasHandler :=
  ⟨rfl, rfl, rfl, rfl⟩

theorem updateStats_qtRows (f : ℤ → Bool → ℤ) (k : Key) (s : TState) :
    (updateStats f k s).qtRows = s.qtRows := rfl

theorem updateStats_conns (f : ℤ → Bool → ℤ) (k : Key) (s : TState) :
    (updateStats f k s).conns = s.conns := rfl

theorem updateStats_connErr (f : ℤ → Bool → ℤ) (k : Key) (s : TState) :
    (updateStats f k s).connErr = s.connErr := rfl

theorem updateStats_legendsSet (f : ℤ → Bool → ℤ) (k : Key) (s : TState) :
    (updateStats f k s).legendsSet = s.legendsSet := rfl

theorem updateStats_kindColHidden (f : ℤ → Bool → ℤ) (k : Key) (s : TState) :
    (updateStats f k s).kindColHidden = s.kindColHidden := rfl

theorem updateStats_map_fst (f : ℤ → Bool → ℤ) (k : Key) (s : TState) :
    ((updateStats f k s).dict).map Prod.fst = s.dict.map Prod.fst := by
  unfold updateStats updateStatsDict
  cases hp : s.plot with
  | none => rfl
  | some p =>
    by_cases hh : s.hasHandler = true
    · simp only [hh, if_true]
      cases hd : getPlotItem p k with
      | none => rfl
      | some d =>
        by_cases hm : k ∈ s.dict.map Prod.fst
        · simp [hm, setVal_map_fst]
        · simp [hm]
    · simp [hh]

/-- Effect of `_updateStats` on the tracked key's cell when the plot, the
stats handler and the item are all present. -/
theorem lookupVal_updateStats_self (f : ℤ → Bool → ℤ) (k : Key) (a : TState)
    (p : PlotModel) (dd : ℤ) (hp : a.plot = some p) (hh : a.hasHandler = true)
    (hd : getPlotItem p k = some dd) (hk : k ∈ a.dict.map Prod.fst) :
    lookupVal (updateStats f k a).dict k =
      some (some (f dd a.statsOnVisibleData)) := by
  unfold updateStats updateStatsDict
  rw [hp]
  simp only [hh, if_true, hd, hk, if_pos]
  exact lookupVal_setVal_self _ _ _ hk

/-- `_updateStats` on a different key leaves a key's cell unchanged. -/
theorem lookupVal_updateStats_other (f : ℤ → Bool → ℤ) (k k' : Key) (a : TState)
    (h : k ≠ k') : lookupVal (updateStats f k' a).dict k = lookupVal a.dict k := by
  unfold updateStats updateStatsDict
  cases hp : a.plot with
  | none => rfl
  | some p =>
    by_cases hh : a.hasHandler = true
    · simp only [hh, if_true]
      cases hd : getPlotItem p k' with
      | none => rfl
      | some d =>
        by_cases hm : k' ∈ a.dict.map Prod.fst
        · simp only [hm, if_pos]
          exact lookupVal_setVal_ne _ _ _ _ h
        · simp [hm]
    · simp [hh]

theorem addItem_plot (f : ℤ → Bool → ℤ) (k : Key) (s : TState) :
    (addItem f k s).plot = s.plot := by
  unfold addItem; split <;> rfl

theorem addItem_displayOnlyActItem (f : ℤ → Bool → ℤ) (k : Key) (s : TState) :
    (addItem f k s).displayOnlyActItem = s.displayOnlyActItem := by
  unfold addItem; split <;> rfl

theorem addItem_statsOnVisibleData (f : ℤ → Bool → ℤ) (k : Key) (s : TState) :
    (addItem f k s).statsOnVisibleData = s.statsOnVisibleData := by
  unfold addItem; split <;> rfl

theorem addItem_callbacksSet (f : ℤ → Bool → ℤ) (k : Key) (s : TState) :
    (addItem f k s).callbacksSet = s.callbacksSet := by
  unfold addItem; split <;> rfl

theorem addItem_hasHandler (f : ℤ → Bool → ℤ) (k : Key) (s : TState) :
    (addItem f k s).hasHandler = s.hasHandler := by
  unfold addItem; split <;> rfl

theorem addItem_conns (f : ℤ → Bool → ℤ) (k : Key) (s : TState) :
    (addItem f k s).conns = s.conns := by
  unfold addItem; split <;> rfl

theorem addItem_connErr (f : ℤ → Bool → ℤ) (k : Key) (s : TState) :
    (addItem f k s).connErr = s.connErr := by
  unfold addItem; split <;> rfl

theorem removeItem_plot (k : Key) (s : TState) :
    (removeItem k s).plot = s.plot := by
  unfold removeItem; split <;> rfl

theorem removeItem_displayOnlyActItem (k : Key) (s : TState) :
    (removeItem k s).displayOnlyActItem = s.displayOnlyActItem := by
  unfold removeItem; split <;> rfl

theorem removeItem_statsOnVisibleData (k : Key) (s : TState) :
    (removeItem k s).statsOnVisibleData = s.statsOnVisibleData := by
  unfold removeItem; split <;> rfl

theorem removeItem_callbacksSet (k : Key) (s : TState) :
    (removeItem k s).callbacksSet = s.callbacksSet := by
  unfold removeItem; split <;> rfl

theorem removeItem_hasHandler (k : Key) (s : TState) :
    (removeItem k s).hasHandler = s.hasHandler := by
  unfold removeItem; split <;> rfl

theorem removeItem_conns (k : Key) (s : TState) :
    (removeItem k s).conns = s.conns := by
  unfold removeItem; split <;> rfl

theorem removeItem_connErr (k : Key) (s : TState) :
    (removeItem k s).connErr = s.connErr := by
  unfold removeItem; split <;> rfl

/-- Generic frame lemma for left folds whose step preserves a field. -/
theorem foldl_field_eq {α β : Type} (g : TState → β) (f : TState → α → TState)
    (hg : ∀ s a, g (f s a) = g s) :
    ∀ (ks : List α) (s : TState), g (ks.foldl f s) = g s := by
  intro ks
  induction ks with
  | nil => intro s; rfl
  | cons k tl ih => intro s; rw [List.foldl_cons, ih, hg]

theorem clearTable_plot (s : TState) : (clearTable s).plot = s.plot := by
  unfold clearTable
  exact foldl_field_eq TState.plot _ (fun a k => removeItem_plot k a) _ s

theorem clearTable_displayOnlyActItem (s : TState) :
    (clearTable s).displayOnlyActItem = s.displayOnlyActItem := by
  unfold clearTable
  exact foldl_field_eq TState.displayOnlyActItem _
    (fun a k => removeItem_displayOnlyActItem k a) _ s

theorem clearTable_statsOnVisibleData (s : TState) :
    (clearTable s).statsOnVisibleData = s.statsOnVisibleData := by
  unfold clearTable
  exact foldl_field_eq TState.statsOnVisibleData _
    (fun a k => removeItem_statsOnVisibleData k a) _ s

theorem clearTable_callbacksSet (s : TState) :
    (clearTable s).callbacksSet = s.callbacksSet := by
  unfold clearTable
  exact foldl_field_eq TState.callbacksSet _
    (fun a k => removeItem_callbacksSet k a) _ s

theorem clearTable_hasHandler (s : TState) :
    (clearTable s).hasHandler = s.hasHandler := by
  unfold clearTable
  exact foldl_field_eq TState.hasHandler _ (fun a k => removeItem_hasHandler k a) _ s

theorem clearTable_conns (s : TState) : (clearTable s).conns = s.conns := by
  unfold clearTable
  exact foldl_field_eq TState.conns _ (fun a k => removeItem_conns k a) _ s

theorem clearTable_connErr (s : TState) : (clearTable s).connErr = s.connErr := by
  unfold clearTable
  exact foldl_field_eq TState.connErr _ (fun a k => removeItem_connErr k a) _ s

theorem updateItemObserve_plot (f : ℤ → Bool → ℤ) (s : TState) :
    (updateItemObserve f s).plot = s.plot := by
  unfold updateItemObserve
  cases hp : s.plot with
  | none => exact hp
  | some p =>
    rw [foldl_field_eq TState.plot _ (fun a k => addItem_plot f k a) _ _,
      clearTable_plot]
    exact hp

theorem updateItemObserve_displayOnlyActItem (f : ℤ → Bool → ℤ) (s : TState) :
    (updateItemObserve f s).displayOnlyActItem = s.displayOnlyActItem := by
  unfold updateItemObserve
  cases hp : s.plot with
  | none => rfl
  | some p =>
    rw [foldl_field_eq TState.displayOnlyActItem _
      (fun a k => addItem_displayOnlyActItem f k a) _ _,
      clearTable_displayOnlyActItem]

theorem updateItemObserve_statsOnVisibleData (f : ℤ → Bool → ℤ) (s : TState) :
    (updateItemObserve f s).statsOnVisibleData = s.statsOnVisibleData := by
  unfold updateItemObserve
  cases hp : s.plot with
  | none => rfl
  | some p =>
    rw [foldl_field_eq TState.statsOnVisibleData _
      (fun a k => addItem_statsOnVisibleData f k a) _ _,
      clearTable_statsOnVisibleData]

theorem updateItemObserve_callbacksSet (f : ℤ → Bool → ℤ) (s : TState) :
    (updateItemObserve f s).callbacksSet = s.callbacksSet := by
  unfold updateItemObserve
  cases hp : s.plot with
  | none => rfl
  | some p =>
    rw [foldl_field_eq TState.callbacksSet _
      (fun a k => addItem_callbacksSet f k a) _ _,
      clearTable_callbacksSet]

theorem updateItemObserve_hasHandler (f : ℤ → Bool → ℤ) (s : TState) :
    (updateItemObserve f s).hasHandler = s.hasHandler := by
  unfold updateItemObserve
  cases hp : s.plot with
  | none => rfl
  | some p =>
    rw [foldl_field_eq TState.hasHandler _
      (fun a k => addItem_hasHandler f k a) _ _,
      clearTable_hasHandler]

theorem updateItemObserve_conns (f : ℤ → Bool → ℤ) (s : TState) :
    (updateItemObserve f s).conns = s.conns := by
  unfold updateItemObserve
  cases hp : s.plot with
  | none => rfl
  | some p =>
    rw [foldl_field_eq TState.conns _ (fun a k => addItem_conns f k a) _ _,
      clearTable_conns]

theorem updateItemObserve_connErr (f : ℤ → Bool → ℤ) (s : TState) :
    (updateItemObserve f s).connErr = s.connErr := by
  unfold updateItemObserve
  cases hp : s.plot with
  | none => rfl
  | some p =>
    rw [foldl_field_eq TState.connErr _ (fun a k => addItem_connErr f k a) _ _,
      clearTable_connErr]

/-! ## dealWithPlotConnection frame lemmas -/

theorem deal_dict (c : Bool) (s : TState) :
    (dealWithPlotConnection c s).dict = s.dict := by
  unfold dealWithPlotConnection
  cases s.plot <;> rfl

theorem deal_qtRows (c : Bool) (s : TState) :
    (dealWithPlotConnection c s).qtRows = s.qtRows := by
  unfold dealWithPlotConnection
  cases s.plot <;> rfl

theorem deal_legendsSet (c : Bool) (s : TState) :
    (dealWithPlotConnection c s).legendsSet = s.legendsSet := by
  unfold dealWithPlotConnection
  cases s.plot <;> rfl

theorem deal_kindColHidden (c : Bool) (s : TState) :
    (dealWithPlotConnection c s).kindColHidden = s.kindColHidden := by
  unfold dealWithPlotConnection
  cases s.plot <;> rfl

theorem deal_plot (c : Bool) (s : TState) :
    (dealWithPlotConnection c s).plot = s.plot := by
  unfold dealWithPlotConnection
  cases hp : s.plot with
  | none => exact hp
  | some p => rfl

theorem deal_displayOnlyActItem (c : Bool) (s : TState) :
    (dealWithPlotConnection c s).displayOnlyActItem = s.displayOnlyActItem := by
  unfold dealWithPlotConnection
  cases s.plot <;> rfl

theorem deal_statsOnVisibleData (c : Bool) (s : TState) :
    (dealWithPlotConnection c s).statsOnVisibleData = s.statsOnVisibleData := by
  unfold dealWithPlotConnection
  cases s.plot <;> rfl

theorem deal_hasHandler (c : Bool) (s : TState) :
    (dealWithPlotConnection c s).hasHandler = s.hasHandler := by
  unfold dealWithPlotConnection
  cases s.plot <;> rfl

/-! ## Row bookkeeping invariant (claim C10) -/

/-- Effect of `_addItem` on the rows for a new key: one row appended. -/
theorem addItem_new_qtRows (f : ℤ → Bool → ℤ) (k : Key) (s : TState)
    (hk : k ∉ s.dict.map Prod.fst) :
    (addItem f k s).qtRows = s.qtRows ++ [k] := by
  unfold addItem
  rw [if_neg hk]
  rfl

/-- Effect of `_addItem` on the mapping keys for a new key: one key
appended. -/
theorem addItem_new_map_fst (f : ℤ → Bool → ℤ) (k : Key) (s : TState)
    (hk : k ∉ s.dict.map Prod.fst) :
    ((addItem f k s).dict).map Prod.fst = s.dict.map Prod.fst ++ [k] := by
  unfold addItem
  rw [if_neg hk]
  have h := updateStats_map_fst f k { s with qtRows := s.qtRows ++ [k], dict := s.dict ++ [(k, none)] }
  exact h.trans (by simp)

theorem addItem_wf (f : ℤ → Bool → ℤ) (k : Key) (s : TState) (h : WfT s) :
    WfT (addItem f k s) := by
  obtain ⟨h1, h2⟩ := h
  by_cases hk : k ∈ s.dict.map Prod.fst
  · have he : addItem f k s = updateStats f k s := by
      unfold addItem; rw [if_pos hk]
    rw [he]
    exact ⟨by rw [updateStats_qtRows, updateStats_map_fst, h1],
      by rw [updateStats_qtRows]; exact h2⟩
  · have hkq : k ∉ s.qtRows := by rw [h1]; exact hk
    refine ⟨?_, ?_⟩
    · rw [addItem_new_qtRows f k s hk, addItem_new_map_fst f k s hk, h1]
    · rw [addItem_new_qtRows f k s hk, List.nodup_append]
      refine ⟨h2, List.nodup_singleton k, ?_⟩
      intro a ha hb
      rw [List.mem_singleton] at hb
      exact hkq (hb ▸ ha)

theorem removeItem_wf (k : Key) (s : TState) (h : WfT s) :
    WfT (removeItem k s) := by
  obtain ⟨h1, h2⟩ := h
  unfold removeItem
  by_cases hk : k ∈ s.dict.map Prod.fst
  · rw [if_pos hk]
    refine ⟨?_, ?_⟩
    · show eraseFirst s.qtRows k = (eraseKey s.dict k).map Prod.fst
      rw [h1, eraseFirst_map_fst]
    · show (eraseFirst s.qtRows k).Nodup
      exact h2.sublist (eraseFirst_sublist s.qtRows k)
  · rw [if_neg hk]
    exact ⟨h1, h2⟩

theorem clearTable_wf (s : TState) : WfT (clearTable s) :=
  ⟨rfl, List.nodup_nil⟩

theorem foldl_addItem_wf (f : ℤ → Bool → ℤ) :
    ∀ (ks : List Key) (s : TState), WfT s →
      WfT (ks.foldl (fun a k => addItem f k a) s) := by
  intro ks
  induction ks with
  | nil => exact fun s h => h
  | cons k tl ih =>
    intro s h
    rw [List.foldl_cons]
    exact ih _ (addItem_wf f k s h)

theorem updateItemObserve_wf (f : ℤ → Bool → ℤ) (s : TState) (h : WfT s) :
    WfT (updateItemObserve f s) := by
  unfold updateItemObserve
  cases s.plot with
  | none => exact h
  | some p => exact foldl_addItem_wf f _ _ (clearTable_wf s)

/-- Transferring WfT across a function that does not touch the rows or the
mapping. -/
theorem wf_of_frames (s t : TState) (hq : t.qtRows = s.qtRows)
    (hd : t.dict = s.dict) (h : WfT s) : WfT t := by
  obtain ⟨h1, h2⟩ := h
  exact ⟨by rw [hq, hd, h1], by rw [hq]; exact h2⟩

theorem setPlot_wf (f : ℤ → Bool → ℤ) (np : Option PlotModel) (s : TState) :
    WfT (setPlot f np s) := by
  unfold setPlot
  refine updateItemObserve_wf f _ ?_
  exact wf_of_frames _ _ (deal_qtRows true _) (deal_dict true _)
    (clearTable_wf _)

theorem setDisplayOnlyActiveItem_wf (f : ℤ → Bool → ℤ) (b : Bool) (s : TState)
    (h : WfT s) : WfT (setDisplayOnlyActiveItem f b s) := by
  unfold setDisplayOnlyActiveItem
  by_cases hb : s.displayOnlyActItem = b
  · rw [if_pos hb]; exact h
  · rw [if_neg hb]
    refine wf_of_frames _ _ (deal_qtRows true _) (deal_dict true _) ?_
    refine updateItemObserve_wf f _ ?_
    exact wf_of_frames _ _ (deal_qtRows false _) (deal_dict false _) h

/-! ## Claim theorems: StatsTable rows -/

/-- C8: calling `_removeItem` with a (legend, kind) key that is not in the
tracked mapping is a silent no-op: the returned state is the input state,
unchanged in every field. -/
theorem removeItem_untracked_noop (s : TState) (k : Key)
    (hk : k ∉ s.dict.map Prod.fst) : removeItem k s = s := by
  unfold removeItem
  rw [if_neg hk]

/-- Witness for C8 at a concrete input. -/
theorem removeItem_untracked_noop_witness :
    removeItem ⟨"curve1", Kind.curve⟩ initState = initState :=
  removeItem_untracked_noop initState ⟨"curve1", Kind.curve⟩ (by simp [initState])


/-- C2: calling `_addItem` with an item whose (legend, kind) key is already
tracked leaves exactly one row for the key (same rows, same row count, no
duplicate) and refreshes that row's statistic value in place; the tracked
key set, the connections, the legends list and the plot are unchanged. -/
theorem addItem_existing_key (f : ℤ → Bool → ℤ) (s : TState) (k : Key)
    (p : PlotModel) (d : ℤ)
    (hwf : s.qtRows = s.dict.map Prod.fst) (hnd : s.qtRows.Nodup)
    (hk : k ∈ s.dict.map Prod.fst)
    (hp : s.plot = some p) (hd : getPlotItem p k = some d)
    (hh : s.hasHandler = true) :
    (addItem f k s).qtRows = s.qtRows ∧
    ((addItem f k s).dict).map Prod.fst = s.dict.map Prod.fst ∧
    ((addItem f k s).qtRows).count k = 1 ∧
    lookupVal (addItem f k s).dict k = some (some (f d s.statsOnVisibleData)) ∧
    (addItem f k s).conns = s.conns ∧
    (addItem f k s).legendsSet = s.legendsSet ∧
    (addItem f k s).plot = s.plot := by
  have he : addItem f k s = updateStats f k s := by
    unfold addItem; rw [if_pos hk]
  rw [he]
  refine ⟨updateStats_qtRows f k s, updateStats_map_fst f k s, ?_, ?_,
    updateStats_conns f k s, updateStats_legendsSet f k s, updateStats_plot f k s⟩
  · rw [updateStats_qtRows]
    have hkq : k ∈ s.qtRows := by rw [hwf]; exact hk
    exact List.count_eq_one_of_mem hnd hkq
  · exact lookupVal_updateStats_self f k s p d hp hh hd hk

/-- Witness for C2 at a concrete input. -/
theorem addItem_existing_key_witness :
    (addItem (fun z _ => z * 2) kC1 sEx).qtRows = sEx.qtRows ∧
    lookupVal (addItem (fun z _ => z * 2) kC1 sEx).dict kC1 = some (some 10) := by
  have h := addItem_existing_key (fun z _ => z * 2) sEx kC1 pEx 5
    (by rfl) (by simp [sEx]) (by simp [sEx]) (by rfl) (by rfl) (by rfl)
  exact ⟨h.1, h.2.2.2.1⟩

/-- C10: in every state reachable from a freshly constructed table by any
sequence of `_addItem`, `_removeItem` and `clear` operations, the Qt row
count equals the number of keys in the tracked mapping. -/
theorem statsTable_rowCount_eq_tracked (f : ℤ → Bool → ℤ)
    (p0 : Option PlotModel) (ops : List TOp) :
    ((ops.foldl (applyTOp f) (mkTable f p0)).qtRows).length =
      ((ops.foldl (applyTOp f) (mkTable f p0)).dict).length := by
  have hfold : ∀ (l : List TOp) (s : TState), WfT s →
      WfT (l.foldl (applyTOp f) s) := by
    intro l
    induction l with
    | nil => exact fun s h => h
    | cons op tl ih =>
      intro s h
      rw [List.foldl_cons]
      refine ih _ ?_
      cases op with
      | addOp k => exact addItem_wf f k s h
      | removeOp k => exact removeItem_wf k s h
      | clearOp => exact clearTable_wf s
  have h := hfold ops (mkTable f p0) (setPlot_wf f p0 initState)
  rw [h.1, List.length_map]

/-! ## Connection invariant (claim C3) -/


theorem connsFor_none (flag : Bool) : connsFor none flag = [] := rfl

theorem connsFor_some_true (p : PlotModel) :
    connsFor (some p) true =
      [(p.pid, Sig.plotSignal), (p.pid, Sig.actCurve), (p.pid, Sig.actScatter),
        (p.pid, Sig.actImage)] := rfl

theorem connsFor_some_false (p : PlotModel) :
    connsFor (some p) false =
      [(p.pid, Sig.plotSignal), (p.pid, Sig.contentChanged)] := rfl

theorem connsFor_nodup (plot : Option PlotModel) (flag : Bool) :
    (connsFor plot flag).Nodup := by
  cases plot with
  | none => exact List.nodup_nil
  | some p =>
    cases flag
    · rw [connsFor_some_false]
      simp
    · rw [connsFor_some_true]
      simp

/-- A list without duplicates holds each element at most once. -/
theorem count_le_one_of_nodup {α : Type} [BEq α] [LawfulBEq α] :
    ∀ (l : List α), l.Nodup → ∀ a : α, l.count a ≤ 1 := by
  intro l
  induction l with
  | nil => intro _ a; simp
  | cons x xs ih =>
    intro h a
    rcases List.nodup_cons.mp h with ⟨hx, hxs⟩
    rw [List.count_cons]
    by_cases hxa : x = a
    · subst hxa
      have hz : xs.count x = 0 := List.count_eq_zero_of_not_mem hx
      simp [hz]
    · have hb : (x == a) = false := by simp [hxa]
      simp only [hb, Bool.false_eq_true, if_false, Nat.add_zero]
      exact ih hxs a

/-- `_dealWithPlotConnection(create=False)` from an invariant state
removes every connection, with no disconnect error. -/
theorem deal_false_reset (s : TState) (h : ConnInv s) :
    (dealWithPlotConnection false s).connErr = false ∧
    (dealWithPlotConnection false s).callbacksSet = false ∧
    (dealWithPlotConnection false s).conns = [] := by
  obtain ⟨he, hcb, hcn⟩ := h
  unfold dealWithPlotConnection
  cases hp : s.plot with
  | none =>
    rw [hp, connsFor_none] at hcn
    rw [hp] at hcb
    simp only [Option.isSome_none, Bool.and_false] at hcb
    exact ⟨he, hcb, hcn⟩
  | some p =>
    rw [hp] at hcn hcb
    simp only [Option.isSome_some, Bool.and_true] at hcb
    cases hf : s.displayOnlyActItem with
    | true =>
      rw [hf, connsFor_some_true] at hcn
      rw [hf] at hcb
      simp [discP, eraseFirst, hcn, hcb, he, hf]
    | false =>
      rw [hf, connsFor_some_false] at hcn
      rw [hf] at hcb
      simp [discP, eraseFirst, hcn, hcb, he, hf]

/-- `_dealWithPlotConnection(create=True)` from a fully disconnected state
establishes the connection invariant. -/
theorem deal_true_establish (s : TState) (he : s.connErr = false)
    (hcb : s.callbacksSet = false) (hcn : s.conns = []) :
    ConnInv (dealWithPlotConnection true s) := by
  unfold ConnInv
  rw [deal_plot, deal_displayOnlyActItem]
  unfold dealWithPlotConnection
  cases hp : s.plot with
  | none =>
    rw [connsFor_none]
    exact ⟨he, by simp [hcb], hcn⟩
  | some p =>
    cases hf : s.displayOnlyActItem with
    | true =>
      rw [connsFor_some_true]
      simp [connP, hcn, he, hf]
    | false =>
      rw [connsFor_some_false]
      simp [connP, hcn, he, hcb, hf]

/-- `_updateItemObserve` does not touch the connection state. -/
theorem connInv_updateItemObserve (f : ℤ → Bool → ℤ) (t : TState)
    (h : ConnInv t) : ConnInv (updateItemObserve f t) := by
  obtain ⟨he, hcb, hcn⟩ := h
  refine ⟨?_, ?_, ?_⟩
  · rw [updateItemObserve_connErr]; exact he
  · rw [updateItemObserve_callbacksSet, updateItemObserve_displayOnlyActItem,
      updateItemObserve_plot]
    exact hcb
  · rw [updateItemObserve_conns, updateItemObserve_displayOnlyActItem,
      updateItemObserve_plot]
    exact hcn

/-- `setPlot` preserves the connection invariant. -/
theorem setPlot_connInv (f : ℤ → Bool → ℤ) (np : Option PlotModel) (s : TState)
    (h : ConnInv s) : ConnInv (setPlot f np s) := by
  unfold setPlot
  apply connInv_updateItemObserve
  obtain ⟨he1, hcb1, hcn1⟩ := deal_false_reset s h
  apply deal_true_establish
  · rw [clearTable_connErr]; exact he1
  · rw [clearTable_callbacksSet]; exact hcb1
  · rw [clearTable_conns]; exact hcn1

/-- `setDisplayOnlyActiveItem` preserves the connection invariant. -/
theorem setDisplay_connInv (f : ℤ → Bool → ℤ) (b : Bool) (s : TState)
    (h : ConnInv s) : ConnInv (setDisplayOnlyActiveItem f b s) := by
  unfold setDisplayOnlyActiveItem
  by_cases hb : s.displayOnlyActItem = b
  · rw [if_pos hb]; exact h
  · rw [if_neg hb]
    obtain ⟨he1, hcb1, hcn1⟩ := deal_false_reset s h
    apply deal_true_establish
    · rw [updateItemObserve_connErr]; exact he1
    · rw [updateItemObserve_callbacksSet]; exact hcb1
    · rw [updateItemObserve_conns]; exact hcn1

/-- C3: in every state reachable from a freshly constructed table by any
sequence of `setPlot` and `setDisplayOnlyActiveItem` calls, no disconnect
was ever attempted on a dead connection and every plot signal carries at
most one connection from the table: no callback is ever registered
twice. -/
theorem statsTable_connections_at_most_one (f : ℤ → Bool → ℤ)
    (p0 : Option PlotModel) (ops : List COp) :
    ((ops.foldl (applyCOp f) (mkTable f p0)).connErr = false) ∧
    ∀ pid sig,
      (((ops.foldl (applyCOp f) (mkTable f p0)).conns).count (pid, sig)) ≤ 1 := by
  have hstep : ∀ (l : List COp) (t : TState), ConnInv t →
      ConnInv (l.foldl (applyCOp f) t) := by
    intro l
    induction l with
    | nil => exact fun t h => h
    | cons op tl ih =>
      intro t h
      rw [List.foldl_cons]
      refine ih _ ?_
      cases op with
      | setPlotOp p => exact setPlot_connInv f p t h
      | setDisplayOp b => exact setDisplay_connInv f b t h
  obtain ⟨he, hcb, hcn⟩ :=
    hstep ops (mkTable f p0) (setPlot_connInv f p0 initState ⟨rfl, rfl, rfl⟩)
  refine ⟨he, fun pid sig => ?_⟩
  rw [hcn]
  exact count_le_one_of_nodup _ (connsFor_nodup _ _) _

/-! ## Recomputation lemmas (claim C9) -/

theorem lookupVal_mem (d : List (Key × Option ℤ)) (k : Key) (v : Option ℤ)
    (h : lookupVal d k = some v) : k ∈ d.map Prod.fst := by
  induction d with
  | nil => exact absurd h (by simp [lookupVal])
  | cons hd tl ih =>
    obtain ⟨k0, v0⟩ := hd
    by_cases h0 : k0 = k
    · simp [h0]
    · simp only [lookupVal, if_neg h0] at h
      simp [ih h]

/-- Once a tracked key's cell holds its recomputed value, folding
`_updateStats` over further keys leaves that value in place (updates of
other keys do not touch it, and an update of the same key rewrites the
same value). -/
theorem foldl_updateStats_preserve (f : ℤ → Bool → ℤ) (k : Key) (p : PlotModel)
    (dd : ℤ) (hd : getPlotItem p k = some dd) :
    ∀ (ks : List Key) (a : TState), a.plot = some p → a.hasHandler = true →
      lookupVal a.dict k = some (some (f dd a.statsOnVisibleData)) →
      lookupVal ((ks.foldl (fun acc k' => updateStats f k' acc) a)).dict k =
        some (some (f dd a.statsOnVisibleData)) := by
  intro ks
  induction ks with
  | nil => intro a _ _ hv; exact hv
  | cons k0 tl ih =>
    intro a hp hh hv
    rw [List.foldl_cons]
    by_cases h0 : k0 = k
    · subst h0
      have hv' := lookupVal_updateStats_self f k0 a p dd hp hh hd
        (lookupVal_mem _ _ _ hv)
      exact ih _ hp hh hv'
    · have hv' : lookupVal (updateStats f k0 a).dict k =
          some (some (f dd a.statsOnVisibleData)) := by
        rw [lookupVal_updateStats_other f k k0 a (fun hc => h0 hc.symm)]
        exact hv
      exact ih _ hp hh hv'

/-- Folding `_updateStats` over a key list which contains a tracked,
resolvable key recomputes that key's cell. -/
theorem foldl_updateStats_compute (f : ℤ → Bool → ℤ) (k : Key) (p : PlotModel)
    (dd : ℤ) (hd : getPlotItem p k = some dd) :
    ∀ (ks : List Key) (a : TState), a.plot = some p → a.hasHandler = true →
      k ∈ ks → k ∈ a.dict.map Prod.fst →
      lookupVal ((ks.foldl (fun acc k' => updateStats f k' acc) a)).dict k =
        some (some (f dd a.statsOnVisibleData)) := by
  intro ks
  induction ks with
  | nil => intro a _ _ hks _; exact absurd hks (List.not_mem_nil k)
  | cons k0 tl ih =>
    intro a hp hh hks hmem
    rw [List.foldl_cons]
    by_cases h0 : k0 = k
    · subst h0
      have hv' := lookupVal_updateStats_self f k0 a p dd hp hh hd hmem
      exact foldl_updateStats_preserve f k0 p dd hd tl _ hp hh hv'
    · have hks' : k ∈ tl := by
        rcases List.mem_cons.mp hks with h | h
        · exact absurd h.symm h0
        · exact h
      have hmem' : k ∈ ((updateStats f k0 a).dict).map Prod.fst := by
        rw [updateStats_map_fst]; exact hmem
      exact ih _ hp hh hks' hmem'

/-- C9: toggling `setStatsOnVisibleData` to a different value recomputes
the statistic value of every tracked, resolvable row against the new
flag, and changes nothing else: tracked keys, row list, connections,
mode flags, legends and column visibility are untouched. -/
theorem setStatsOnVisibleData_toggle (f : ℤ → Bool → ℤ) (s : TState) (b : Bool)
    (p : PlotModel) (hb : s.statsOnVisibleData ≠ b) (hp : s.plot = some p)
    (hh : s.hasHandler = true) :
    (setStatsOnVisibleData f b s).statsOnVisibleData = b ∧
    ((setStatsOnVisibleData f b s).dict).map Prod.fst = s.dict.map Prod.fst ∧
    (setStatsOnVisibleData f b s).qtRows = s.qtRows ∧
    (setStatsOnVisibleData f b s).conns = s.conns ∧
    (setStatsOnVisibleData f b s).connErr = s.connErr ∧
    (setStatsOnVisibleData f b s).callbacksSet = s.callbacksSet ∧
    (setStatsOnVisibleData f b s).plot = s.plot ∧
    (setStatsOnVisibleData f b s).displayOnlyActItem = s.displayOnlyActItem ∧
    (setStatsOnVisibleData f b s).legendsSet = s.legendsSet ∧
    (setStatsOnVisibleData f b s).kindColHidden = s.kindColHidden ∧
    ∀ (k : Key) (dd : ℤ), k ∈ s.dict.map Prod.fst → getPlotItem p k = some dd →
      lookupVal (setStatsOnVisibleData f b s).dict k = some (some (f dd b)) := by
  have he : setStatsOnVisibleData f b s =
      updateCurrentStats f { s with statsOnVisibleData := b } := by
    unfold setStatsOnVisibleData
    rw [if_neg hb]
  rw [he]
  unfold updateCurrentStats
  refine ⟨?_, ?_, ?_, ?_, ?_, ?_, ?_, ?_, ?_, ?_, ?_⟩
  · exact foldl_field_eq TState.statsOnVisibleData
      (fun acc k => updateStats f k acc) (fun a k => rfl) _ _
  · exact foldl_field_eq (fun t => t.dict.map Prod.fst)
      (fun acc k => updateStats f k acc) (fun a k => updateStats_map_fst f k a) _ _
  · exact foldl_field_eq TState.qtRows
      (fun acc k => updateStats f k acc) (fun a k => rfl) _ _
  · exact foldl_field_eq TState.conns
      (fun acc k => updateStats f k acc) (fun a k => rfl) _ _
  · exact foldl_field_eq TState.connErr
      (fun acc k => updateStats f k acc) (fun a k => rfl) _ _
  · exact foldl_field_eq TState.callbacksSet
      (fun acc k => updateStats f k acc) (fun a k => rfl) _ _
  · exact foldl_field_eq TState.plot
      (fun acc k => updateStats f k acc) (fun a k => rfl) _ _
  · exact foldl_field_eq TState.displayOnlyActItem
      (fun acc k => updateStats f k acc) (fun a k => rfl) _ _
  · exact foldl_field_eq TState.legendsSet
      (fun acc k => updateStats f k acc) (fun a k => rfl) _ _
  · exact foldl_field_eq TState.kindColHidden
      (fun acc k => updateStats f k acc) (fun a k => rfl) _ _
  · intro k dd hmem hdd
    exact foldl_updateStats_compute f k p dd hdd _ _ hp hh hmem hmem

/-- Witness for C9 at a concrete input. -/
theorem setStatsOnVisibleData_toggle_witness :
    (setStatsOnVisibleData (fun z _ => z * 2) true sEx).qtRows = sEx.qtRows ∧
    lookupVal (setStatsOnVisibleData (fun z _ => z * 2) true sEx).dict kC1 =
      some (some 10) := by
  have h := setStatsOnVisibleData_toggle (fun z _ => z * 2) sEx true pEx
    (by decide) rfl rfl
  exact ⟨h.2.2.1, h.2.2.2.2.2.2.2.2.2.2 kC1 5 (by decide) rfl⟩

end Silx
